import Mathlib

/-!
Shallow embedding of the FBpost repository's webhook, publishing and
data-erasure handlers, with proofs of the spec's testable properties.

The repository's `src/netlify/functions/webhook.ts` contains three
revisions of the webhook handler concatenated in one file:
* revision 1 (lines 1-472): full intent routing (daily post with TTS,
  image edit, schedule help, quick-reply prompts, chat fallback);
* revision 2 (lines 473-738): the pending-post / confirm-and-publish
  flow with an in-file `publishToFacebookPage`;
* revision 3 (lines 739-986): an earlier skeleton.
`src/unnamed/part_001` is the standalone publish-to-page function and
`src/unnamed/part_003` the signed data-erasure handler.

JavaScript `string | undefined` values are modelled as `Option String`
(with `undefined === undefined` true, matching `none = none`), and JS
truthiness of such a value as `truthy` below.  Strings are ASCII in all
relevant literals, so `toLowerCase`, `trim` and `substring` are modelled
by character-list operations.
-/

/-- An HTTP-style response: status code plus optional body
(a JS handler may return `body: undefined`). -/
structure Resp where
  status : Nat
  body : Option String
deriving Repr, DecidableEq

/-- JS truthiness of a `string | undefined` value: `undefined` and the
empty string are falsy. -/
def truthy : Option String → Bool
  | none => false
  | some s => s ≠ ""

/-- `pat` is a prefix of `hay` (character lists). Models
`String.prototype.startsWith` for ASCII strings. -/
def startsWithL : List Char → List Char → Bool
  | _, [] => true
  | [], _ :: _ => false
  | h :: hs, p :: ps => h = p && startsWithL hs ps

/-- `pat` occurs as a contiguous run inside `hay` (character lists).
Models `String.prototype.includes` for ASCII strings. -/
def containsL : List Char → List Char → Bool
  | [], ps => ps.isEmpty
  | h :: t, ps => startsWithL (h :: t) ps || containsL t ps

/-- `String.prototype.includes` on ASCII strings. -/
def strContains (hay pat : String) : Bool := containsL hay.data pat.data

/-- `String.prototype.startsWith` on ASCII strings. -/
def strStarts (hay pat : String) : Bool := startsWithL hay.data pat.data

/-- ASCII lower-casing of one character, as `toLowerCase` acts on ASCII. -/
def lowerChar (c : Char) : Char :=
  if 65 ≤ c.toNat ∧ c.toNat ≤ 90 then Char.ofNat (c.toNat + 32) else c

/-- `String.prototype.toLowerCase` restricted to ASCII strings. -/
def lowerStr (s : String) : String := ⟨s.data.map lowerChar⟩

/-- `String.prototype.substring(n)`: drop the first `n` characters. -/
def dropStr (s : String) (n : Nat) : String := ⟨s.data.drop n⟩

/-- ASCII whitespace, for modelling `String.prototype.trim`. -/
def isWsp (c : Char) : Bool := c = ' ' || c = '\t' || c = '\n' || c = '\r'

/-- `String.prototype.trim` restricted to ASCII whitespace. -/
def trimStr (s : String) : String :=
  ⟨((s.data.dropWhile isWsp).reverse.dropWhile isWsp).reverse⟩

/-- Render a JS `string | undefined` inside a template literal:
`undefined` prints as `"undefined"`. -/
def tmpl : Option String → String
  | none => "undefined"
  | some s => s

/-- The fixed theme vocabulary of the revision-1 Daily Post branch
(webhook.ts line 185), in source order. -/
def dailyPostThemes : List String := ["inspirational", "sad", "storytelling", "funny"]

/-- The revision-1 theme-extraction loop (webhook.ts lines 184-191):
`theme` starts as `'inspirational'` and the loop breaks at the first
listed theme contained in the lower-cased text. -/
def themeLoop : List String → String → String
  | [], _ => "inspirational"
  | t :: ts, txt => if strContains txt t then t else themeLoop ts txt

/-- Theme extracted from the lower-cased message text of a Daily Post
request. -/
def extractTheme (lowerCaseText : String) : String :=
  themeLoop dailyPostThemes lowerCaseText

/-- Modelled from the spec's words, for comparison with `extractTheme`:
"the first element of the fixed list that occurs as a substring of the
text, defaulting to 'inspirational' when none occurs". -/
def specFirstTheme (lowerCaseText : String) : String :=
  (dailyPostThemes.find? (fun t => strContains lowerCaseText t)).getD "inspirational"

/-- `x || d` on a JS `string | undefined` value `x`: the default is
used when `x` is `undefined` or empty. -/
def strOr (o : Option String) (d : String) : String :=
  match o with
  | some s => if s = "" then d else s
  | none => d

/-- `String.prototype.replace('_', ' ')`: replace the first underscore. -/
def replaceUnd1 : List Char → List Char
  | [] => []
  | c :: t => if c = '_' then ' ' :: t else c :: replaceUnd1 t

/-- `type.replace('_', ' ')` used in the Daily Post banner. -/
def replaceUnd (s : String) : String := ⟨replaceUnd1 s.data⟩

/-- Outcome of the revision-1 TTS `generateContent` call: either it
returned (with `candidates?.[0]?.content?.parts?.[0]?.inlineData?.data`
possibly absent), or it threw (with `ttsError.message` possibly
absent). -/
inductive TtsOutcome where
  | returned (base64Audio : Option String)
  | threw (message : Option String)
deriving Repr, DecidableEq

/-- The assembled bot reply carried to `sendMessengerMessage`:
`botResponseText` and the optional `botAudioUrl`. -/
structure BotReply where
  text : String
  audioUrl : Option String
deriving Repr, DecidableEq

/-- The Daily Post banner text (webhook.ts line 225):
`Daily Post (${theme} - ${type.replace('_', ' ')}):\n\n` followed by the
generated text or the fallback. -/
def mkDailyPostText (theme ptype : String) (genText : Option String) : String :=
  "Daily Post (" ++ theme ++ " - " ++ replaceUnd ptype ++ "):\n\n" ++
    strOr genText "Could not generate post."

/-- Revision-1 Daily Post TTS step and response assembly (webhook.ts
lines 225-253).  `genText` is `textGenResponse.text`; the TTS call runs
only under `enableTTS && textGenResponse.text` (JS truthiness).  A
returned audio payload sets `botAudioUrl` and appends the
cannot-send-directly note; a missing payload or a thrown error appends
an explanatory degradation note and leaves the audio absent — the
failure is caught locally and never escapes the branch. -/
def dailyPostAssemble (theme ptype voice : String) (genText : Option String)
    (enableTTS : Bool) (tts : TtsOutcome) : BotReply :=
  let base := mkDailyPostText theme ptype genText
  if enableTTS && truthy genText then
    match tts with
    | .returned (some b64) =>
        { text := base ++ "\n\n(Note: Audio was generated with voice " ++ voice ++
            " but cannot be sent directly in Messenger. Please use the web app for the full experience.)",
          audioUrl := some ("data:audio/wav;base64," ++ b64) }
    | .returned none =>
        { text := base ++ "\n\n(Note: Could not generate audio for this post.)",
          audioUrl := none }
    | .threw m =>
        { text := base ++ "\n\n(Note: Failed to generate audio: " ++
            strOr m "Unknown error" ++ ")",
          audioUrl := none }
  else { text := base, audioUrl := none }

/-- A Messenger attachment: `type`, `payload.url`, `mimeType`. -/
structure Attachment where
  type : String
  url : Option String
  mimeType : Option String
deriving Repr, DecidableEq

/-- Outcome of the revision-1 EditImage branch. -/
inductive EditBranchAction where
  /-- reply "Please tell me how you want to edit the image after
  'edit this image:'." and issue no image-edit call -/
  | clarify
  /-- issue the Gemini image-edit call with this prompt -/
  | editCall (prompt : String)
  /-- reply "To edit an image, please send an image attachment with your
  'edit this image:' command." and issue no image-edit call -/
  | askAttachment
deriving Repr, DecidableEq

/-- Which arm of the revision-1 else-if chain handled a message with
text (webhook.ts lines 165-343). -/
inductive Rev1Branch where
  /-- the "Post Now" explanation branch (line 170) -/
  | postNow
  /-- the Daily Post generation branch (line 176) -/
  | dailyPost
  /-- the EditImage branch (line 256), with what it did -/
  | editImage (action : EditBranchAction)
  /-- the remaining arms (schedule post, quick-reply prompts, chat
  fallback, lines 308-343), none of which issues an image-edit call -/
  | later
deriving Repr, DecidableEq

/-- The revision-1 else-if chain over the lower-cased message text
(webhook.ts lines 165-343), down to the EditImage branch.  In priority
order: the "Post Now" phrases (line 170); then
`includes('post') && (story || reel || daily post || generate post)`
(line 176); then the EditImage guard
`lowerCaseText.startsWith('edit this image:') && messageAttachments?.length > 0`
(line 256), whose body inspects only `messageAttachments[0]`: when that
attachment is an image with a truthy `payload.url`,
`editPrompt = messageText.substring(16).trim()`
(`'edit this image:'.length = 16`, taken from the original-case text),
an empty prompt asks for clarification, a non-empty one is passed to
the image-edit call; all remaining arms are `.later`. -/
def classifyRev1 (messageText : String) (attachments : List Attachment) : Rev1Branch :=
  let lowerCaseText := lowerStr messageText
  if strContains lowerCaseText "post now" || strContains lowerCaseText "publish this" ||
      strContains lowerCaseText "share this" || strContains lowerCaseText "upload this" ||
      strContains lowerCaseText "make it live" then
    .postNow
  else if strContains lowerCaseText "post" &&
      (strContains lowerCaseText "story" || strContains lowerCaseText "reel" ||
        strContains lowerCaseText "daily post" || strContains lowerCaseText "generate post") then
    .dailyPost
  else if strStarts lowerCaseText "edit this image:" && !attachments.isEmpty then
    match attachments.head? with
    | some att =>
      if att.type == "image" && truthy att.url then
        let editPrompt := trimStr (dropStr messageText 16)
        if editPrompt = "" then .editImage .clarify
        else .editImage (.editCall editPrompt)
      else .editImage .askAttachment
    | none => .later
  else .later

/-- A per-sender pending post (`userContext.pendingPost` in revision 2):
text body plus optional image data URI. -/
structure PendingPost where
  text : String
  imageUrl : Option String
deriving Repr, DecidableEq

/-- Result shape of `publishToFacebookPage`:
`{ success, postId?, error? }`. -/
structure PubResult where
  success : Bool
  postId : Option String
  error : Option String
deriving Repr, DecidableEq

/-- The ConfirmPost trigger (webhook.ts line 609):
`lowerCaseText === 'yes, post it' || quickReplyPayload === 'CONFIRM_POST'`. -/
def isConfirmTrigger (lowerCaseText : String) (quickReplyPayload : Option String) : Bool :=
  lowerCaseText == "yes, post it" || quickReplyPayload == some "CONFIRM_POST"

/-- Outcome of the revision-2 ConfirmPost branch: the final
`botResponseText`, the intermediate status messages sent before it, how
many times `publishToFacebookPage` was invoked, and the pending post
remaining in `user_context` afterwards. -/
structure ConfirmOutcome where
  response : String
  earlySends : List String
  publishCalls : Nat
  pendingAfter : Option PendingPost
deriving Repr, DecidableEq

/-- Revision-2 ConfirmPost branch (webhook.ts lines 609-629).  With a
pending post: send "Publishing to your Page now...", call
`publishToFacebookPage(pendingPost.text, pendingPost.imageUrl)` once,
then on success report the post id and `$unset` the pending post, on
failure report the vendor error and leave the pending post in place.
With no pending post: reply that nothing is stored, with no publish
call.  (`${...}` template interpolation renders absent values as
"undefined", as JS does.) -/
def confirmPostBranch (pending : Option PendingPost)
    (publish : PendingPost → PubResult) : ConfirmOutcome :=
  match pending with
  | some pp =>
    let result := publish pp
    if result.success then
      { response := "‚úÖ Successfully posted to your Page! (Post ID: " ++
          tmpl result.postId ++ ")",
        earlySends := ["Publishing to your Page now..."],
        publishCalls := 1,
        pendingAfter := none }
    else
      { response := "‚ùå Failed to post: " ++ tmpl result.error,
        earlySends := ["Publishing to your Page now..."],
        publishCalls := 1,
        pendingAfter := some pp }
  | none =>
    { response := "I don't have any recent content stored to post. Try asking me to generate a story or edit an image first!",
      earlySends := [],
      publishCalls := 0,
      pendingAfter := none }

/-- Parsed JSON body of a Graph API reply: whether an `error` field is
present, its optional `message`, and the `id` field. -/
structure FbJsonBody where
  hasError : Bool
  errorMessage : Option String
  id : Option String
deriving Repr, DecidableEq

/-- A Graph API HTTP reply: `response.ok` (2xx status) plus parsed
JSON body. -/
structure FbResponse where
  ok : Bool
  body : FbJsonBody
deriving Repr, DecidableEq

/-- The standalone publish function (src/unnamed/part_001, lines
42-113): the photo path checks
`!fbUploadResponse.ok || fbUploadData.error` and throws
`data.error?.message || 'Failed to upload image to Facebook.'`; the feed
path does the same with fallback
`'Failed to create text post on Facebook.'`; the catch returns
`{ success: false, error: error.message }` and the success path
`{ success: true, postId: data.id }`.  `hasImage` selects the path
(truthiness of `imageUrl`); `resp` is the reply of whichever endpoint
was called. -/
def publishStandalone (hasImage : Bool) (resp : FbResponse) : PubResult :=
  if hasImage then
    if !resp.ok || resp.body.hasError then
      { success := false, postId := none,
        error := some (strOr (if resp.body.hasError then resp.body.errorMessage else none)
          "Failed to upload image to Facebook.") }
    else { success := true, postId := resp.body.id, error := none }
  else
    if !resp.ok || resp.body.hasError then
      { success := false, postId := none,
        error := some (strOr (if resp.body.hasError then resp.body.errorMessage else none)
          "Failed to create text post on Facebook.") }
    else { success := true, postId := resp.body.id, error := none }

/-- The revision-2 in-webhook `publishToFacebookPage` (webhook.ts lines
522-561): both paths check only `if (data.error) throw new
Error(data.error.message)` — `response.ok` is never consulted — and
return `{ success: true, postId: data.id }` otherwise; the catch returns
`{ success: false, error: error.message }` (an absent vendor message
yields `new Error(undefined)` whose `message` is the empty string). -/
def publishToFacebookPage (hasImage : Bool) (resp : FbResponse) : PubResult :=
  if hasImage then
    if resp.body.hasError then
      { success := false, postId := none,
        error := some (resp.body.errorMessage.getD "") }
    else { success := true, postId := resp.body.id, error := none }
  else
    if resp.body.hasError then
      { success := false, postId := none,
        error := some (resp.body.errorMessage.getD "") }
    else { success := true, postId := resp.body.id, error := none }

/-- `const lowerCaseText = messageText?.toLowerCase() || ''`
(webhook.ts line 606). -/
def lowerCaseTextOf (messageText : Option String) : String :=
  match messageText with
  | some s => lowerStr s
  | none => ""

/-- The revision-2 event dispatch restricted to the ConfirmPost check:
`some` outcome when the confirmation trigger matches, `none` when the
event falls through to the generation/chat branches. -/
def handleConfirmStage (messageText quickReplyPayload : Option String)
    (pending : Option PendingPost) (publish : PendingPost → PubResult) :
    Option ConfirmOutcome :=
  if isConfirmTrigger (lowerCaseTextOf messageText) quickReplyPayload then
    some (confirmPostBranch pending publish)
  else none

/-- `String.prototype.split(c)` on a single-character separator:
splitting at every occurrence, keeping empty pieces. -/
def splitCharAux (c : Char) : List Char → List (List Char)
  | [] => [[]]
  | h :: t =>
    let r := splitCharAux c t
    if h = c then [] :: r
    else
      match r with
      | [] => [[h]]
      | g :: gs => (h :: g) :: gs

/-- `s.split(c)` as a list of strings. -/
def splitChar (c : Char) (s : String) : List String :=
  (splitCharAux c s.data).map String.mk

/-- Decoded payload of a Facebook signed request: the `user_id` field
(possibly absent). -/
structure ErasurePayload where
  userId : Option String
deriving Repr, DecidableEq

/-- External library operations used by the data-erasure handler
(src/unnamed/part_003), uninterpreted here: `hmacSha256 secret msg` is
`createHmac('sha256', secret).update(msg).digest()` as bytes;
`decodeSignature` is `Buffer.from(sig.replace(dash, plus).replace(underscore, slash),
'base64url')` as bytes; `decodePayload` the same pipeline ending in
`.toString('utf8')`; `jsonParse` is `JSON.parse` with `none` for a
throw. -/
structure CryptoOps where
  hmacSha256 : String → String → List Nat
  decodeSignature : String → List Nat
  decodePayload : String → String
  jsonParse : String → Option ErasurePayload

/-- `verifySignedRequest` (src/unnamed/part_003, lines 51-87): reject a
falsy signed request or secret, split on '.', require exactly two
parts, compare the decoded signature byte-for-byte against the
HMAC-SHA256 of the still-encoded payload, and JSON-parse the decoded
payload only when the signature matches. -/
def verifySignedRequest (ops : CryptoOps) (signedRequest appSecret : String) :
    Option ErasurePayload :=
  if signedRequest = "" ∨ appSecret = "" then none
  else
    match splitChar '.' signedRequest with
    | [encSig, encPayload] =>
      if ops.decodeSignature encSig = ops.hmacSha256 appSecret encPayload then
        ops.jsonParse (ops.decodePayload encPayload)
      else none
    | _ => none

/-- A document of the `incoming_messages` collection: the sender id it
is keyed by, plus an opaque remainder. -/
structure StoredMessage where
  senderId : String
  doc : Nat
deriving Repr, DecidableEq

/-- Result of `JSON.parse(event.body || '{}')` for the erasure handler:
either a parse failure or a parsed object with its optional
`signed_request` field. -/
inductive BodyParse where
  | invalid
  | parsed (signedRequest : Option String)
deriving Repr, DecidableEq

/-- Observable outcome of the data-erasure handler: HTTP status, the
`incoming_messages` collection after the request, and the `url` /
`confirmation_code` fields of the response body. -/
structure ErasureResult where
  status : Nat
  store : List StoredMessage
  bodyUrl : Option String
  bodyConfirmation : Option String
deriving Repr, DecidableEq

/-- The data-erasure handler (src/unnamed/part_003, lines 90-168):
405 on non-POST; 500 when `FB_APP_SECRET` or `MONGODB_URI` is falsy;
400 on unparseable JSON or falsy `signed_request`; 403 when
`verifySignedRequest` yields no payload or the payload's `user_id` is
falsy; otherwise `deleteMany({ senderId: userId })` and a 200 response
with the privacy-policy `url` and a `confirmation_code`
`deleted-${userId}-${Date.now()}`. -/
def dataDeletionHandler (ops : CryptoOps) (fbAppSecret mongoUri : Option String)
    (privacyUrl : String) (method : String) (body : BodyParse)
    (store : List StoredMessage) (now : Nat) : ErasureResult :=
  if method ≠ "POST" then ⟨405, store, none, none⟩
  else if ¬ truthy fbAppSecret then ⟨500, store, none, none⟩
  else if ¬ truthy mongoUri then ⟨500, store, none, none⟩
  else
    match body with
    | .invalid => ⟨400, store, none, none⟩
    | .parsed sr =>
      if ¬ truthy sr then ⟨400, store, none, none⟩
      else
        match verifySignedRequest ops (sr.getD "") (fbAppSecret.getD "") with
        | none => ⟨403, store, none, none⟩
        | some payload =>
          if ¬ truthy payload.userId then ⟨403, store, none, none⟩
          else
            let userId := payload.userId.getD ""
            ⟨200, store.filter (fun m => m.senderId != userId),
              some privacyUrl,
              some ("deleted-" ++ userId ++ "-" ++ toString now)⟩

/-- What one messaging event observably did: whether control reached
the intent-routing core, which reply text was handed to
`sendMessengerMessage`, and whether that reply was the catch-block
apology. -/
structure EventTrace where
  coreLogicRan : Bool
  replySent : Option String
  apology : Bool
deriving Repr, DecidableEq

/-- The revision-1 per-event catch-block apology text (webhook.ts
line 354). -/
def apology1 : String :=
  "Apologies, I encountered an internal error while processing your request. Please try again later."

/-- Revision-1 per-event processing skeleton (webhook.ts lines
141-358): connect to the store, insert the inbound audit record, run
the intent-routing core to obtain the reply text, send it.  Any throw
lands in the per-event catch, which sends the apology inside a nested
try/catch; `sendMessengerMessage` itself never throws (its fetch is
wrapped in try/catch at lines 456-469), so the event always completes
with a trace.  `dbConnect` and `insertInbound` are the outcomes of the
two store calls, `coreLogic` the outcome of routing + generation. -/
def processEvent1 (dbConnect insertInbound : Except String Unit)
    (coreLogic : Except String String) : EventTrace :=
  match dbConnect with
  | .error _ => { coreLogicRan := false, replySent := some apology1, apology := true }
  | .ok _ =>
    match insertInbound with
    | .error _ => { coreLogicRan := false, replySent := some apology1, apology := true }
    | .ok _ =>
      match coreLogic with
      | .ok text => { coreLogicRan := true, replySent := some text, apology := false }
      | .error _ => { coreLogicRan := true, replySent := some apology1, apology := true }

/-- The revision-1 batch loop over the flattened messaging events
(webhook.ts lines 129-360): each event is processed by the total
per-event step, strictly in order. -/
def runEvents1 {ε : Type} (step : ε → EventTrace) : List ε → List EventTrace
  | [] => []
  | e :: es => step e :: runEvents1 step es

/-- Revision-1 `object == 'page'` branch: process every event, then
acknowledge with `200 EVENT_RECEIVED` (webhook.ts lines 361-362). -/
def handlePage1 {ε : Type} (step : ε → EventTrace) (events : List ε) :
    List EventTrace × Resp :=
  (runEvents1 step events, ⟨200, some "EVENT_RECEIVED"⟩)

/-- Revision-2 per-event step (webhook.ts lines 605-692): the try-block
runs the core logic; its catch sends "Sorry, I encountered an error."
with NO nested try/catch, and the revision-2 `sendMessengerMessage`
(lines 731-735) does not guard its fetch — so a failing apology send
escapes the event as an exception. -/
def step2 {ε : Type} (coreLogic : ε → Except String String)
    (apologySend : ε → Except String Unit) (e : ε) : Except String EventTrace :=
  match coreLogic e with
  | .ok text => .ok { coreLogicRan := true, replySent := some text, apology := false }
  | .error _ =>
    match apologySend e with
    | .ok _ =>
      .ok { coreLogicRan := true,
            replySent := some "Sorry, I encountered an error.",
            apology := true }
    | .error m => .error m

/-- The revision-2 batch loop: events strictly in order, an escaped
exception aborts the remainder of the batch. -/
def runEvents2 {ε : Type} (step : ε → Except String EventTrace) :
    List ε → Except String (List EventTrace)
  | [] => .ok []
  | e :: es =>
    match step e with
    | .ok t =>
      match runEvents2 step es with
      | .ok ts => .ok (t :: ts)
      | .error m => .error m
    | .error m => .error m

/-- Revision-2 `object == 'page'` branch: the 200 `EVENT_RECEIVED` ack
(webhook.ts line 695) is reached only if no exception escaped the
loop. -/
def handlePage2 {ε : Type} (step : ε → Except String EventTrace) (events : List ε) :
    Except String (List EventTrace × Resp) :=
  match runEvents2 step events with
  | .ok ts => .ok (ts, ⟨200, some "EVENT_RECEIVED"⟩)
  | .error m => .error m

/-- Query parameters of the webhook verification GET request
(`hub.mode`, `hub.verify_token`, `hub.challenge`), each possibly absent. -/
structure VerifyQuery where
  mode : Option String
  verifyToken : Option String
  challenge : Option String
deriving Repr, DecidableEq

/-- Revision 1 webhook handler, GET branch (webhook.ts lines 78-105):
first the top-of-handler guard returning 500 when `FB_VERIFY_TOKEN` is
missing (falsy), then the verification check
`mode === 'subscribe' && token === FB_VERIFY_TOKEN`, answering 200 with
the echoed challenge on success and 403 `Forbidden` otherwise. -/
def webhookGet1 (fbVerifyToken : Option String) (q : VerifyQuery) : Resp :=
  if !truthy fbVerifyToken then
    { status := 500, body := some "\x7b\"message\":\"FB_VERIFY_TOKEN is not configured.\"\x7d" }
  else if q.mode = some "subscribe" && q.verifyToken == fbVerifyToken then
    { status := 200, body := q.challenge }
  else
    { status := 403, body := some "Forbidden" }

/-- Revision 2 webhook handler, GET branch (webhook.ts lines 563-571):
no configuration guard at all — the comparison
`query?.['hub.verify_token'] === FB_VERIFY_TOKEN` is performed directly,
and `undefined === undefined` is true. -/
def webhookGet2 (fbVerifyToken : Option String) (q : VerifyQuery) : Resp :=
  if q.mode = some "subscribe" && q.verifyToken == fbVerifyToken then
    { status := 200, body := q.challenge }
  else
    { status := 403, body := some "Forbidden" }

/-- C7: with `mode = subscribe` and the correct configured token the
revision-1 GET verification answers 200 echoing the challenge; any other
mode/token combination answers 403. -/
theorem webhookGet1_verification (tok : String) (htok : tok ≠ "") (q : VerifyQuery) :
    (q.mode = some "subscribe" ∧ q.verifyToken = some tok →
      webhookGet1 (some tok) q = { status := 200, body := q.challenge }) ∧
    (¬ (q.mode = some "subscribe" ∧ q.verifyToken = some tok) →
      webhookGet1 (some tok) q = { status := 403, body := some "Forbidden" }) := by
  constructor
  · rintro ⟨hm, ht⟩
    simp [webhookGet1, truthy, htok, hm, ht]
  · intro h
    by_cases hm : q.mode = some "subscribe"
    · have ht : q.verifyToken ≠ some tok := fun habs => h ⟨hm, habs⟩
      simp [webhookGet1, truthy, htok, hm, ht]
    · simp [webhookGet1, truthy, htok, hm]

/-- Witness for C7: the concrete scenario of the spec — token "tok",
`challenge = "123"` — echoes exactly "123" with status 200. -/
theorem webhookGet1_verification_witness :
    webhookGet1 (some "tok") ⟨some "subscribe", some "tok", some "123"⟩ =
      { status := 200, body := some "123" } :=
  (webhookGet1_verification "tok" (by decide)
    ⟨some "subscribe", some "tok", some "123"⟩).1 (by exact ⟨rfl, rfl⟩)

/-- The break-at-first-match theme loop agrees with the
first-listed-element-that-occurs description, for any theme list. -/
theorem themeLoop_eq_find (ts : List String) (txt : String) :
    themeLoop ts txt = ((ts.find? (fun t => strContains txt t)).getD "inspirational") := by
  induction ts with
  | nil => rfl
  | cons t ts ih =>
    by_cases h : strContains txt t
    · simp [themeLoop, List.find?, h]
    · simp [themeLoop, List.find?, h, ih]

/-- C4: theme extraction is the first element of the fixed list
[inspirational, sad, storytelling, funny] occurring as a substring of
the lower-cased text, defaulting to "inspirational"; it depends only on
which theme keywords occur (hence is independent of their order in the
message); and "post a sad inspirational story" always resolves to
"inspirational".  Determinism and idempotence are immediate since the
extraction is a pure function of the text. -/
theorem extractTheme_first_listed_match :
    (∀ txt, extractTheme txt = specFirstTheme txt) ∧
    (∀ t1 t2, (∀ th ∈ dailyPostThemes, strContains t1 th = strContains t2 th) →
      extractTheme t1 = extractTheme t2) ∧
    extractTheme "post a sad inspirational story" = "inspirational" := by
  refine ⟨fun txt => themeLoop_eq_find dailyPostThemes txt, ?_, by decide⟩
  intro t1 t2 h
  have h1 := h "inspirational" (by simp [dailyPostThemes])
  have h2 := h "sad" (by simp [dailyPostThemes])
  have h3 := h "storytelling" (by simp [dailyPostThemes])
  have h4 := h "funny" (by simp [dailyPostThemes])
  simp only [extractTheme, dailyPostThemes, themeLoop, h1, h2, h3, h4]

/-- Witness for C4: two messages with the same theme keywords in
different order extract the same theme. -/
theorem extractTheme_first_listed_match_witness :
    extractTheme "post a sad story today" = extractTheme "today a story post sad" :=
  extractTheme_first_listed_match.2.1 _ _ (by decide)

/-- Appending to a non-empty string yields a non-empty string. -/
theorem append_ne_empty_left (a b : String) (ha : a ≠ "") : a ++ b ≠ "" := by
  intro h
  apply ha
  apply String.ext
  have hd : a.data ++ b.data = [] := by
    have hc := congrArg String.data h
    rwa [String.data_append] at hc
  exact (List.append_eq_nil.mp hd).1

/-- String append is associative. -/
theorem str_append_assoc (a b c : String) : a ++ b ++ c = a ++ (b ++ c) := by
  apply String.ext
  simp only [String.data_append, List.append_assoc]

/-- A prefix of `l1` is also a prefix of `l1 ++ l2`. -/
theorem startsWithL_append (l1 l2 p : List Char) (h : startsWithL l1 p = true) :
    startsWithL (l1 ++ l2) p = true := by
  induction p generalizing l1 with
  | nil => cases l1 <;> simp [startsWithL]
  | cons c cs ih =>
    cases l1 with
    | nil => simp [startsWithL] at h
    | cons a l1' =>
      simp only [List.cons_append, startsWithL, Bool.and_eq_true] at h ⊢
      exact ⟨h.1, ih l1' h.2⟩

/-- A prefix of `a` is also a prefix of `a ++ b`. -/
theorem strStarts_append (a b p : String) (h : strStarts a p = true) :
    strStarts (a ++ b) p = true := by
  unfold strStarts at h ⊢
  rw [String.data_append]
  exact startsWithL_append a.data b.data p.data h

/-- The Daily Post banner is never the empty string. -/
theorem mkDailyPostText_ne_empty (theme ptype : String) (g : Option String) :
    mkDailyPostText theme ptype g ≠ "" := by
  unfold mkDailyPostText
  apply append_ne_empty_left
  apply append_ne_empty_left
  apply append_ne_empty_left
  apply append_ne_empty_left
  apply append_ne_empty_left
  decide

/-- C2: for every `DailyPost{story_reel, tts=true}` assembly, the
response text is non-empty, and — whenever the text generation produced
truthy text so the TTS step actually runs — either the audio data URI is
set (when TTS returned audio), or the audio is absent and an explanatory
"(Note:" degradation note has been appended to the banner text.  The
embedding of the TTS step is total: a thrown TTS error still yields a
reply, never a failed request. -/
theorem dailyPost_tts_degradation (theme ptype voice : String)
    (genText : Option String) (tts : TtsOutcome) :
    (dailyPostAssemble theme ptype voice genText true tts).text ≠ "" ∧
    (truthy genText = true →
      ((dailyPostAssemble theme ptype voice genText true tts).audioUrl = none →
        ∃ note, (dailyPostAssemble theme ptype voice genText true tts).text =
          mkDailyPostText theme ptype genText ++ note ∧
          strStarts note "\n\n(Note:" = true) ∧
      (∀ b64, tts = .returned (some b64) →
        (dailyPostAssemble theme ptype voice genText true tts).audioUrl =
          some ("data:audio/wav;base64," ++ b64))) := by
  by_cases hg : truthy genText
  · cases tts with
    | returned b =>
      cases b with
      | some b64 =>
        have ht : (dailyPostAssemble theme ptype voice genText true
              (.returned (some b64))).text =
            mkDailyPostText theme ptype genText ++
              ("\n\n(Note: Audio was generated with voice " ++ (voice ++
                " but cannot be sent directly in Messenger. Please use the web app for the full experience.)")) := by
          simp [dailyPostAssemble, hg, str_append_assoc]
        have ha : (dailyPostAssemble theme ptype voice genText true
              (.returned (some b64))).audioUrl =
            some ("data:audio/wav;base64," ++ b64) := by
          simp [dailyPostAssemble, hg]
        refine ⟨?_, fun _ => ⟨fun hnone => ?_, fun b64' hb => ?_⟩⟩
        · rw [ht]
          exact append_ne_empty_left _ _ (mkDailyPostText_ne_empty theme ptype genText)
        · rw [ha] at hnone; cases hnone
        · injection hb with h1
          injection h1 with h2
          subst h2
          exact ha
      | none =>
        have ht : (dailyPostAssemble theme ptype voice genText true
              (.returned none)).text =
            mkDailyPostText theme ptype genText ++
              "\n\n(Note: Could not generate audio for this post.)" := by
          simp [dailyPostAssemble, hg]
        refine ⟨?_, fun _ => ⟨fun _ => ?_, fun b64' hb => by cases hb⟩⟩
        · rw [ht]
          exact append_ne_empty_left _ _ (mkDailyPostText_ne_empty theme ptype genText)
        · exact ⟨"\n\n(Note: Could not generate audio for this post.)", ht, by decide⟩
    | threw m =>
      have ht : (dailyPostAssemble theme ptype voice genText true (.threw m)).text =
          mkDailyPostText theme ptype genText ++
            ("\n\n(Note: Failed to generate audio: " ++
              (strOr m "Unknown error" ++ ")")) := by
        simp [dailyPostAssemble, hg, str_append_assoc]
      refine ⟨?_, fun _ => ⟨fun _ => ?_, fun b64' hb => by cases hb⟩⟩
      · rw [ht]
        exact append_ne_empty_left _ _ (mkDailyPostText_ne_empty theme ptype genText)
      · refine ⟨"\n\n(Note: Failed to generate audio: " ++
          (strOr m "Unknown error" ++ ")"), ht, ?_⟩
        apply strStarts_append
        decide
  · simp only [Bool.not_eq_true] at hg
    have ht : (dailyPostAssemble theme ptype voice genText true tts).text =
        mkDailyPostText theme ptype genText := by
      simp [dailyPostAssemble, hg]
    refine ⟨?_, fun h => by rw [h] at hg; cases hg⟩
    rw [ht]
    exact mkDailyPostText_ne_empty theme ptype genText

/-- Witness for C2: a concrete story-reel post with voice requested
whose TTS call throws — the reply still carries the banner text with a
"(Note:" degradation note appended. -/
theorem dailyPost_tts_degradation_witness :
    ∃ note,
      (dailyPostAssemble "funny" "story_reel" "Zephyr" (some "A story.") true
        (.threw (some "boom"))).text =
        mkDailyPostText "funny" "story_reel" (some "A story.") ++ note ∧
      strStarts note "\n\n(Note:" = true :=
  ((dailyPost_tts_degradation "funny" "story_reel" "Zephyr" (some "A story.")
    (.threw (some "boom"))).2 (by decide)).1 (by decide)

/-- C1: for every inbound ConfirmPost event (text "yes, post it" after
lower-casing, or quick-reply payload CONFIRM_POST): with no pending post
the handler replies with the nothing-pending chat message and performs
no publish call; with a pending post the publish operation is invoked
exactly once, the pending post is deleted iff publish reports success,
and on publish failure it remains present. -/
theorem confirmPost_publish_once (mt qr : Option String)
    (htrig : isConfirmTrigger (lowerCaseTextOf mt) qr = true)
    (pending : Option PendingPost) (publish : PendingPost → PubResult) :
    ∃ oc, handleConfirmStage mt qr pending publish = some oc ∧
      (pending = none →
        oc.publishCalls = 0 ∧
        oc.response =
          "I don't have any recent content stored to post. Try asking me to generate a story or edit an image first!") ∧
      (∀ pp, pending = some pp →
        oc.publishCalls = 1 ∧
        (oc.pendingAfter = none ↔ (publish pp).success = true) ∧
        ((publish pp).success = false → oc.pendingAfter = some pp)) := by
  refine ⟨confirmPostBranch pending publish, by simp [handleConfirmStage, htrig], ?_, ?_⟩
  · rintro rfl
    exact ⟨rfl, rfl⟩
  · rintro pp rfl
    by_cases hs : (publish pp).success
    · refine ⟨?_, ?_, ?_⟩ <;> simp [confirmPostBranch, hs]
    · simp only [Bool.not_eq_true] at hs
      refine ⟨?_, ?_, ?_⟩ <;> simp [confirmPostBranch, hs]

/-- Witness for C1: user typed "Yes, post it" with a pending text post
and the publish call reports a vendor failure — publish was invoked once
and the pending post is still present afterwards. -/
theorem confirmPost_publish_once_witness :
    ∃ oc, handleConfirmStage (some "Yes, post it") none
        (some ⟨"hello world", none⟩)
        (fun _ => ⟨false, none, some "(#200) Permissions error"⟩) = some oc ∧
      oc.publishCalls = 1 ∧ oc.pendingAfter = some ⟨"hello world", none⟩ := by
  obtain ⟨oc, hsome, _, hpend⟩ := confirmPost_publish_once (some "Yes, post it") none
    (by decide) (some ⟨"hello world", none⟩)
    (fun _ => ⟨false, none, some "(#200) Permissions error"⟩)
  obtain ⟨hcalls, _, hkeep⟩ := hpend ⟨"hello world", none⟩ rfl
  exact ⟨oc, hsome, hcalls, hkeep rfl⟩

/-- Counterexample to C5 as stated: a non-2xx Graph API reply whose
JSON body carries no `error` field is reported as success by the
revision-2 in-webhook publisher (it never consults `response.ok`),
contradicting "any non-2xx HTTP response … is a failure". -/
theorem publishToFacebookPage_non2xx_cex :
    (FbResponse.mk false ⟨false, none, some "123"⟩).ok = false ∧
    (publishToFacebookPage false ⟨false, ⟨false, none, some "123"⟩⟩).success = true ∧
    (publishToFacebookPage true ⟨false, ⟨false, none, some "123"⟩⟩).success = true := by
  decide

/-- C5 (amended): the standalone publish endpoint treats any non-2xx
reply or embedded `error` field as failure and a clean 2xx reply as
success, on both the photo and the feed path; both adapters surface a
non-empty vendor-provided `error.message` verbatim; the in-webhook
publisher fails exactly when the body carries an `error` field,
regardless of the HTTP status. -/
theorem publisher_error_surfacing (hasImage : Bool) (resp : FbResponse) :
    ((resp.ok = false ∨ resp.body.hasError = true) →
      (publishStandalone hasImage resp).success = false) ∧
    ((resp.ok = true ∧ resp.body.hasError = false) →
      (publishStandalone hasImage resp).success = true ∧
      (publishStandalone hasImage resp).postId = resp.body.id) ∧
    (∀ m, resp.body.hasError = true → resp.body.errorMessage = some m → m ≠ "" →
      (publishStandalone hasImage resp).error = some m ∧
      (publishToFacebookPage hasImage resp).error = some m) ∧
    (resp.body.hasError = true → (publishToFacebookPage hasImage resp).success = false) ∧
    (resp.body.hasError = false →
      (publishToFacebookPage hasImage resp).success = true ∧
      (publishToFacebookPage hasImage resp).postId = resp.body.id) := by
  refine ⟨?_, ?_, ?_, ?_, ?_⟩
  · rintro (hok | herr)
    · cases hasImage <;> simp [publishStandalone, hok]
    · cases hasImage <;> simp [publishStandalone, herr]
  · rintro ⟨hok, herr⟩
    cases hasImage <;> simp [publishStandalone, hok, herr]
  · intro m herr hm hne
    cases hasImage <;>
      simp [publishStandalone, publishToFacebookPage, herr, hm, strOr, hne]
  · intro herr
    cases hasImage <;> simp [publishToFacebookPage, herr]
  · intro herr
    cases hasImage <;> simp [publishToFacebookPage, herr]

/-- Witness for the amended C5: a non-2xx photo upload whose body says
`error.message = "(#100) Invalid parameter"` — both adapters surface the
vendor message verbatim and the standalone adapter reports failure. -/
theorem publisher_error_surfacing_witness :
    (publishStandalone true ⟨false, ⟨true, some "(#100) Invalid parameter", none⟩⟩).success = false ∧
    (publishStandalone true ⟨false, ⟨true, some "(#100) Invalid parameter", none⟩⟩).error =
      some "(#100) Invalid parameter" ∧
    (publishToFacebookPage true ⟨false, ⟨true, some "(#100) Invalid parameter", none⟩⟩).error =
      some "(#100) Invalid parameter" := by
  obtain ⟨h1, _, h3, _, _⟩ :=
    publisher_error_surfacing true ⟨false, ⟨true, some "(#100) Invalid parameter", none⟩⟩
  obtain ⟨hs, hw⟩ := h3 "(#100) Invalid parameter" rfl rfl (by decide)
  exact ⟨h1 (Or.inl rfl), hs, hw⟩

/-- C6: for a POST data-erasure request with configured secret and
store URI and a non-empty `signed_request` of the form `sig.payload`:
when the decoded signature equals the HMAC-SHA256 of the payload under
the app secret and the payload decodes to a non-empty `user_id`, every
stored record for that user is deleted and the handler answers 200 with
a `url` and a `confirmation_code`; when the signature does not match
the HMAC, the handler answers 403 and the store is unchanged. -/
theorem dataErasure_hmac_gate (ops : CryptoOps) (secret uri sr privacyUrl : String)
    (hsec : secret ≠ "") (huri : uri ≠ "") (hsr : sr ≠ "")
    (store : List StoredMessage) (now : Nat) :
    (∀ encSig encPayload uid,
      splitChar '.' sr = [encSig, encPayload] →
      ops.decodeSignature encSig = ops.hmacSha256 secret encPayload →
      ops.jsonParse (ops.decodePayload encPayload) = some ⟨some uid⟩ →
      uid ≠ "" →
      dataDeletionHandler ops (some secret) (some uri) privacyUrl "POST"
          (.parsed (some sr)) store now =
        ⟨200, store.filter (fun m => m.senderId != uid), some privacyUrl,
          some ("deleted-" ++ uid ++ "-" ++ toString now)⟩ ∧
      ∀ m ∈ (dataDeletionHandler ops (some secret) (some uri) privacyUrl "POST"
          (.parsed (some sr)) store now).store, m.senderId ≠ uid) ∧
    (∀ encSig encPayload,
      splitChar '.' sr = [encSig, encPayload] →
      ops.decodeSignature encSig ≠ ops.hmacSha256 secret encPayload →
      dataDeletionHandler ops (some secret) (some uri) privacyUrl "POST"
          (.parsed (some sr)) store now =
        ⟨403, store, none, none⟩) := by
  constructor
  · intro encSig encPayload uid hsplit hsig hjson huid
    have hv : verifySignedRequest ops sr secret = some ⟨some uid⟩ := by
      simp [verifySignedRequest, hsr, hsec, hsplit, hsig, hjson]
    have hh : dataDeletionHandler ops (some secret) (some uri) privacyUrl "POST"
        (.parsed (some sr)) store now =
        ⟨200, store.filter (fun m => m.senderId != uid), some privacyUrl,
          some ("deleted-" ++ uid ++ "-" ++ toString now)⟩ := by
      simp [dataDeletionHandler, truthy, hsec, huri, hsr, hv, huid]
    refine ⟨hh, ?_⟩
    rw [hh]
    intro m hm
    have := List.of_mem_filter hm
    simpa using this
  · intro encSig encPayload hsplit hsig
    have hv : verifySignedRequest ops sr secret = none := by
      simp [verifySignedRequest, hsr, hsec, hsplit, hsig]
    simp [dataDeletionHandler, truthy, hsec, huri, hsr, hv]

/-- Witness for C6: a concrete signed request "sig.payload" whose
(abstract) crypto operations make the signature match and decode user
"42" — both stored messages of user "42" are deleted, the message of
user "7" survives, and the response carries url and confirmation
code. -/
theorem dataErasure_hmac_gate_witness :
    dataDeletionHandler
        ⟨fun _ _ => [7, 7], fun _ => [7, 7], fun _ => "\x7b\"user_id\":\"42\"\x7d",
          fun _ => some ⟨some "42"⟩⟩
        (some "apps3cret") (some "mongodb://h") "https://x/privacy-policy" "POST"
        (.parsed (some "sig.payload"))
        [⟨"42", 0⟩, ⟨"7", 1⟩, ⟨"42", 2⟩] 99 =
      ⟨200, [⟨"7", 1⟩], some "https://x/privacy-policy",
        some "deleted-42-99"⟩ := by
  have h := (dataErasure_hmac_gate
      ⟨fun _ _ => [7, 7], fun _ => [7, 7], fun _ => "\x7b\"user_id\":\"42\"\x7d",
        fun _ => some ⟨some "42"⟩⟩
      "apps3cret" "mongodb://h" "sig.payload" "https://x/privacy-policy"
      (by decide) (by decide) (by decide)
      [⟨"42", 0⟩, ⟨"7", 1⟩, ⟨"42", 2⟩] 99).1 "sig" "payload" "42"
      (by decide) rfl rfl (by decide)
  exact h.1.trans (by decide)

/-- Counterexample to C3 as stated, on the full else-if chain.  Two
inputs, each beginning with the edit-image prefix, with an image
attachment present and a non-empty trimmed remainder, where no
image-edit call is issued: (1) "edit this image: post a funny story"
(first attachment an image with a URL) is intercepted by the
higher-priority Daily Post branch, since the text contains "post" and
"story"; (2) "edit this image: add a hat" whose image attachment is
second — the branch inspects only `messageAttachments[0]` and asks for
an image attachment instead. -/
theorem classifyRev1_editImage_cex :
    classifyRev1 "edit this image: post a funny story"
        [⟨"image", some "http://x/img.jpg", some "image/jpeg"⟩] =
      .dailyPost ∧
    classifyRev1 "edit this image: add a hat"
        [⟨"video", some "http://x/v.mp4", none⟩,
         ⟨"image", some "http://x/img.jpg", some "image/jpeg"⟩] =
      .editImage .askAttachment := by
  constructor
  · decide
  · decide

/-- C3 (amended): for any text beginning with the edit-image prefix
that matches neither of the two higher-priority branches (none of the
post-now phrases occurs, and not "post" together with one of
story/reel/daily post/generate post), whose FIRST attachment is an
image with a URL: a non-empty trimmed remainder is passed to the
image-edit call as the prompt, an empty remainder gets a clarification
request and no image-edit call. -/
theorem classifyRev1_editImage_prompt (text : String) (att : Attachment)
    (rest : List Attachment)
    (himg : att.type = "image") (hurl : truthy att.url = true)
    (hpre : strStarts (lowerStr text) "edit this image:" = true)
    (hnotPostNow : (strContains (lowerStr text) "post now" ||
      strContains (lowerStr text) "publish this" ||
      strContains (lowerStr text) "share this" ||
      strContains (lowerStr text) "upload this" ||
      strContains (lowerStr text) "make it live") = false)
    (hnotDaily : (strContains (lowerStr text) "post" &&
      (strContains (lowerStr text) "story" ||
        strContains (lowerStr text) "reel" ||
        strContains (lowerStr text) "daily post" ||
        strContains (lowerStr text) "generate post")) = false) :
    (trimStr (dropStr text 16) ≠ "" →
      classifyRev1 text (att :: rest) =
        .editImage (.editCall (trimStr (dropStr text 16)))) ∧
    (trimStr (dropStr text 16) = "" →
      classifyRev1 text (att :: rest) = .editImage .clarify) := by
  constructor <;> intro h <;>
    simp [classifyRev1, hpre, himg, hurl, h, hnotPostNow, hnotDaily]

/-- Witness for the amended C3: the spec's end-to-end scenario 2 —
"edit this image: add a hat" with one image attachment issues the edit
call with prompt "add a hat". -/
theorem classifyRev1_editImage_prompt_witness :
    classifyRev1 "edit this image: add a hat"
        [⟨"image", some "http://x/img.jpg", some "image/jpeg"⟩] =
      .editImage (.editCall "add a hat") := by
  have h := (classifyRev1_editImage_prompt "edit this image: add a hat"
      ⟨"image", some "http://x/img.jpg", some "image/jpeg"⟩ [] rfl (by decide)
      (by decide) (by decide) (by decide)).1 (by decide)
  exact h.trans (by decide)

/-- Counterexample to C8 as stated: in the revision-2 batch of two
events, the first event's processing throws and the apology send in its
catch block throws as well — the exception escapes, the second sibling
event is never attempted, and the 200 acknowledgement is never
reached. -/
theorem batch_abort_cex :
    handlePage2 (step2 (fun _ : Nat => Except.error "gen failed")
        (fun e => if e = 0 then Except.error "network down" else Except.ok ()))
      [0, 1] = Except.error "network down" := by
  simp [handlePage2, runEvents2, step2]

/-- C8 (amended): in revision 1 every messaging event of a page batch
is attempted with an outcome depending only on that event, and the
handler then acknowledges 200 `EVENT_RECEIVED` unconditionally; in
revision 2 the same holds provided the apology send in the per-event
catch never throws. -/
theorem batch_isolation {ε : Type} (step : ε → EventTrace)
    (coreLogic : ε → Except String String) (apologySend : ε → Except String Unit)
    (events : List ε) (hap : ∀ e, apologySend e = Except.ok ()) :
    (handlePage1 step events).2 = ⟨200, some "EVENT_RECEIVED"⟩ ∧
    (handlePage1 step events).1 = events.map step ∧
    ∃ ts, handlePage2 (step2 coreLogic apologySend) events =
        Except.ok (ts, ⟨200, some "EVENT_RECEIVED"⟩) ∧
      ts.length = events.length := by
  refine ⟨rfl, ?_, ?_⟩
  · show runEvents1 step events = events.map step
    induction events with
    | nil => rfl
    | cons e es ih => simp [runEvents1, ih]
  · have h2 : ∀ l : List ε, ∃ ts,
        runEvents2 (step2 coreLogic apologySend) l = Except.ok ts ∧
        ts.length = l.length := by
      intro l
      induction l with
      | nil => exact ⟨[], rfl, rfl⟩
      | cons e es ih =>
        obtain ⟨ts, hts, hlen⟩ := ih
        cases hc : coreLogic e with
        | ok text =>
          refine ⟨EventTrace.mk true (some text) false :: ts, ?_, by simp [hlen]⟩
          simp [runEvents2, step2, hc, hts]
        | error m =>
          refine ⟨EventTrace.mk true (some "Sorry, I encountered an error.") true :: ts,
            ?_, by simp [hlen]⟩
          simp [runEvents2, step2, hc, hap e, hts]
    obtain ⟨ts, hts, hlen⟩ := h2 events
    exact ⟨ts, by simp [handlePage2, hts], hlen⟩

/-- Witness for the amended C8: two events whose core logic both fail
but whose apology sends succeed — both are attempted and the batch is
acknowledged with 200. -/
theorem batch_isolation_witness :
    ∃ ts, handlePage2 (step2 (fun _ : Nat => Except.error "gen failed")
        (fun _ => Except.ok ())) [0, 1] =
        Except.ok (ts, ⟨200, some "EVENT_RECEIVED"⟩) ∧
      ts.length = 2 :=
  (batch_isolation (fun _ => ⟨true, none, false⟩)
    (fun _ : Nat => Except.error "gen failed") (fun _ => Except.ok ())
    [0, 1] (fun _ => rfl)).2.2

/-- Counterexample to C9 as stated: a failing audit insert is not
swallowed at the call site — the per-event catch takes over, the
intent-routing core (which would have produced "Generated reply") never
runs, and the user receives the generic apology instead. -/
theorem recordInbound_failure_cex :
    (processEvent1 (Except.ok ()) (Except.error "persist failed")
      (Except.ok "Generated reply")).coreLogicRan = false ∧
    (processEvent1 (Except.ok ()) (Except.error "persist failed")
      (Except.ok "Generated reply")).replySent = some apology1 ∧
    (processEvent1 (Except.ok ()) (Except.error "persist failed")
      (Except.ok "Generated reply")).replySent ≠ some "Generated reply" := by
  decide

/-- C9 (amended): a failure of the inbound audit insert never fails the
overall request — the batch containing the event is still acknowledged
with 200 `EVENT_RECEIVED` and the user is still sent a reply — but that
reply is the per-event apology: the event's intent-routing core is
aborted rather than the insert failure being swallowed locally. -/
theorem recordInbound_failure_never_fails_request {ε : Type}
    (dbC insR : ε → Except String Unit) (logic : ε → Except String String)
    (events : List ε) (e : ε) (msg : String)
    (hdb : dbC e = Except.ok ()) (hins : insR e = Except.error msg) :
    (handlePage1 (fun x => processEvent1 (dbC x) (insR x) (logic x)) events).2 =
      ⟨200, some "EVENT_RECEIVED"⟩ ∧
    processEvent1 (dbC e) (insR e) (logic e) =
      { coreLogicRan := false, replySent := some apology1, apology := true } := by
  exact ⟨rfl, by simp [processEvent1, hdb, hins]⟩

/-- Witness for the amended C9: one event whose audit insert fails —
the batch is acknowledged with 200 and the event's trace is the
apology. -/
theorem recordInbound_failure_never_fails_request_witness :
    (handlePage1 (fun _ : Nat => processEvent1 (Except.ok ())
        (Except.error "persist failed") (Except.ok "Generated reply")) [0]).2 =
      ⟨200, some "EVENT_RECEIVED"⟩ ∧
    processEvent1 (Except.ok ()) (Except.error "persist failed")
        (Except.ok "Generated reply") =
      { coreLogicRan := false, replySent := some apology1, apology := true } :=
  recordInbound_failure_never_fails_request
    (fun _ => Except.ok ()) (fun _ => Except.error "persist failed")
    (fun _ => Except.ok "Generated reply") [0] 0 "persist failed" rfl rfl

/-- C10: in the revision-2 GET branch, when neither `FB_VERIFY_TOKEN`
nor the `hub.verify_token` query parameter is present, verification
succeeds (`undefined === undefined`) and the handler answers 200 with
the possibly absent challenge as body, instead of 403 or 500. -/
theorem webhookGet2_unconfigured_token (challenge : Option String) :
    webhookGet2 none ⟨some "subscribe", none, challenge⟩ =
      { status := 200, body := challenge } := by
  simp [webhookGet2]
